import Mathlib

/-!
Verification development for the chicx-bot conversational commerce assistant.

Shallow embedding, translated from the Python sources:
  * app/utils/phone.py          — normalize_phone
  * app/core/llm.py             — OpenRouterClient.chat_completion retry policy,
                                  OpenRouterClient.chat_with_tools loop
  * app/api/webhooks/bolna.py   — handle_call_complete, execute_get_order_status,
                                  find_call, process_confirmation_call
  * app/api/webhooks/exotel.py  — handle_exotel_webhook, EXOTEL_STATUS_MAP
  * app/services/whatsapp.py    — is_duplicate_message / mark_message_processed

Python truthiness (`if x:` on Optional strings / ints) is modelled by explicit
helpers below; machine-level details that no claim touches (timestamps, logging,
HTTP framing) are omitted and noted where they occur.
-/

/-- Python truthiness of an optional string: `None` and `""` are falsy. -/
def truthyS : Option String → Bool
  | none => false
  | some s => s ≠ ""

/-- Python truthiness of an optional int: `None` and `0` are falsy. -/
def truthyN : Option Nat → Bool
  | none => false
  | some n => n ≠ 0

/-- Python `a or b` on optional strings (first truthy value, else `b`). -/
def pyOrS (a b : Option String) : Option String :=
  if truthyS a then a else b

/-- Python `a or d` where `d` is a plain default string: yields `d` when `a`
is `None` or `""`, else the string in `a`. -/
def pyOrDefault (a : Option String) (d : String) : String :=
  match a with
  | none => d
  | some s => if s = "" then d else s

/-- Python `str.lstrip("+")`: drop every leading `+`. -/
def lstripPlus (s : String) : String :=
  String.mk (s.toList.dropWhile (fun c => c = '+'))

/-- Python `str.replace(old_char, "")` for a single character. -/
def removeChar (c : Char) (s : String) : String :=
  String.mk (s.toList.filter (fun x => x ≠ c))

/-- Python `str.strip()`: drop whitespace from both ends. -/
def pyStrip (s : String) : String :=
  String.mk ((s.toList.dropWhile Char.isWhitespace).reverse.dropWhile Char.isWhitespace |>.reverse)

/-- Character-list prefix test (kernel-reducible replacement for
`String.startsWith`, which is byte-position based). -/
def strStartsWith (s p : String) : Bool :=
  p.toList.isPrefixOf s.toList

/-- Character-list drop (kernel-reducible replacement for `String.drop`). -/
def strDrop (s : String) (n : Nat) : String :=
  String.mk (s.toList.drop n)

/-- Character count of a string (equals Python `len` on the ASCII strings
these sources handle). -/
def strLen (s : String) : Nat :=
  s.toList.length

/-- Whether `needle` occurs as a contiguous run inside `hay`. -/
def charsInfix : List Char → List Char → Bool
  | needle, [] => needle.isEmpty
  | needle, c :: rest => needle.isPrefixOf (c :: rest) || charsInfix needle rest

/-- Whether `needle` occurs as a contiguous substring of `hay`
(Python `needle in hay`). -/
def strContains (hay needle : String) : Bool :=
  charsInfix needle.toList hay.toList

/-- Python `str.lower()` (ASCII case folding suffices for the keyword lists
and status strings that appear in the sources). -/
def pyLower (s : String) : String :=
  String.mk (s.toList.map Char.toLower)

/-! ## app/utils/phone.py — normalize_phone (lines 6–58)

```python
def normalize_phone(phone: str | None) -> str:
    if not phone:
        return ""
    phone = re.sub(r"[^\d+]", "", phone)
    if "+" in phone:
        phone = "+" + phone.replace("+", "")
    if len(phone) == 10 and phone.isdigit():
        phone = f"+91{phone}"
    elif len(phone) == 11 and phone.startswith("91"):
        phone = f"+{phone}"
    elif len(phone) == 12 and phone.startswith("+91"):
        pass
    elif len(phone) == 13 and phone.startswith("+910"):
        phone = f"+91{phone[4:]}"
    if not phone.startswith("+91") or len(phone) != 13:
        return phone
    return phone
```
`None` input is mapped to the empty-string case. The final `if` returns
`phone` on both branches, so it is a no-op on the value. -/
def normalize_phone (phone : String) : String :=
  if phone = "" then ""
  else
    let p1 := String.mk (phone.toList.filter (fun c => c.isDigit || c = '+'))
    let p2 := if p1.toList.contains '+'
      then "+" ++ removeChar '+' p1
      else p1
    if strLen p2 = 10 && p2.toList.all Char.isDigit && p2 ≠ "" then
      "+91" ++ p2
    else if strLen p2 = 11 && strStartsWith p2 "91" then
      "+" ++ p2
    else if strLen p2 = 12 && strStartsWith p2 "+91" then
      p2
    else if strLen p2 = 13 && strStartsWith p2 "+910" then
      "+91" ++ strDrop p2 4
    else
      p2

/-! ## app/api/webhooks/bolna.py — normalize_phone (lines 598–602), local helper

```python
def normalize_phone(phone: str) -> str:
    if not phone:
        return ""
    return phone.lstrip("+").replace(" ", "").replace("-", "").strip()
```
Renamed `normalize_phone_bolna` here because Lean cannot reuse the name. -/
def normalize_phone_bolna (phone : String) : String :=
  if phone = "" then ""
  else pyStrip (removeChar '-' (removeChar ' ' (lstripPlus phone)))

/-! ## app/api/webhooks/exotel.py — normalize_phone (lines 233–237), local helper

```python
def normalize_phone(phone: str) -> str:
    if not phone:
        return ""
    return phone.lstrip("+").strip()
```
Renamed `normalize_phone_exotel` here. -/
def normalize_phone_exotel (phone : String) : String :=
  if phone = "" then ""
  else pyStrip (lstripPlus phone)

example : normalize_phone "9876543210" = "+919876543210" := by decide
example : normalize_phone "+91-987-654-3210" = "+919876543210" := by decide
example : normalize_phone "91 9876543210" = "919876543210" := by decide
example : normalize_phone "09876543210" = "09876543210" := by decide
example : normalize_phone "" = "" := by decide

/-! ## app/api/webhooks/bolna.py — execute_get_order_status (lines 398–461)

The CHICX backend call `client.get_order(order_id)` is an external
collaborator: its result is a parameter of the model. `OrderLookupResult.err`
stands for a raised `ChicxAPIError` (caught in the function and degraded to a
message), `.notFound` for a falsy `order` value, `.found o` for a returned
order dict with its `phone`, `status` and optional `tracking_number` fields. -/

structure OrderInfo where
  phone : String
  status : String
  tracking_number : Option String
deriving DecidableEq, Repr

inductive OrderLookupResult
  | err
  | notFound
  | found (o : OrderInfo)
deriving DecidableEq, Repr

/-- Reply of a voice tool: `status` is set only on the authorized path that
returns order contents; every other path carries only a user-facing message. -/
structure ToolReply where
  status : Option String
  message : String
deriving DecidableEq, Repr

/-- The `status_messages` table of execute_get_order_status (lines 443–450),
with its `.get(status, f"Your order status is {status}.")` default. -/
def status_messages_get (status : String) : String :=
  if status = "placed" then "Your order has been placed and is being processed."
  else if status = "confirmed" then "Your order is confirmed and will be shipped soon."
  else if status = "shipped" then "Great news! Your order has been shipped."
  else if status = "out_for_delivery" then "Your order is out for delivery today!"
  else if status = "delivered" then "Your order has been delivered."
  else if status = "cancelled" then "This order has been cancelled."
  else "Your order status is " ++ status ++ "."

def execute_get_order_status (order_id : String) (user_phone : Option String)
    (lookup : OrderLookupResult) : ToolReply :=
  if order_id = "" then
    ⟨none, "Please provide your order ID. You can find it in your confirmation email."⟩
  else if !truthyS user_phone then
    ⟨none, "Unable to verify your identity. Please try calling again."⟩
  else
    let up := user_phone.getD ""
    match lookup with
    | .err => ⟨none, "Sorry, I couldn't check your order status right now. Please try again."⟩
    | .notFound => ⟨none, "I couldn't find order " ++ order_id ++ ". Please check the order ID and try again."⟩
    | .found o =>
      let normalized_caller := normalize_phone up
      let normalized_order := normalize_phone o.phone
      if normalized_caller ≠ normalized_order then
        ⟨none, "Order " ++ order_id ++ " not found in your account. Please check the order ID."⟩
      else
        let message := status_messages_get o.status
        let message := match o.tracking_number with
          | some tn => if tn ≠ "" then message ++ " Your tracking number is " ++ tn ++ "." else message
          | none => message
        ⟨some o.status, message⟩

example :
    execute_get_order_status "ORD1" (some "9876543210")
      (.found ⟨"+919876543210", "shipped", none⟩)
      = ⟨some "shipped", "Great news! Your order has been shipped."⟩ := by decide

example :
    (execute_get_order_status "ORD1" (some "09876543210")
      (.found ⟨"9876543210", "shipped", none⟩)).status = none := by decide

/-! ## app/core/llm.py — OpenRouterClient.chat_completion retry policy (lines 76–207)

The tenacity decorator is

```python
@retry(
    retry=retry_if_exception_type((httpx.ConnectError, httpx.TimeoutException, LLMRateLimitError)),
    stop=stop_after_attempt(3),
    wait=wait_exponential(multiplier=1, min=2, max=30),
    reraise=True,
)
```

and the function body translates transport failures before they reach the
decorator:

```python
except httpx.ConnectError as e:   raise LLMConnectionError(...) from e
except httpx.TimeoutException as e: raise LLMConnectionError(...) from e
except LLMError: raise
```

A 429 response raises `LLMRateLimitError` inside the `try`, is re-raised
unchanged by `except LLMError: raise`, and reaches the decorator as
`LLMRateLimitError`. The transport behaviour of each attempt is a parameter
(`attempts k` = what the network does on attempt number `k`, 1-based); the
wait times of `wait_exponential` do not affect which exception surfaces and
are not modelled. -/

inductive AttemptResult
  | success
  | http429
  | connectErr
  | timeoutErr
deriving DecidableEq, Repr

/-- Exception taxonomy as the retry decorator sees it: the raw httpx types it
was configured to retry, and the typed `LLMError` subclasses the body raises. -/
inductive Exc
  | httpxConnectError
  | httpxTimeoutException
  | llmRateLimitError
  | llmConnectionError
  | llmResponseError
deriving DecidableEq, Repr

/-- retry_if_exception_type((httpx.ConnectError, httpx.TimeoutException, LLMRateLimitError)) -/
def retryable : Exc → Bool
  | .httpxConnectError => true
  | .httpxTimeoutException => true
  | .llmRateLimitError => true
  | _ => false

/-- One execution of the chat_completion body: what escapes to the decorator. -/
def chat_completion_body : AttemptResult → Except Exc Unit
  | .success => .ok ()
  | .http429 => .error .llmRateLimitError
  | .connectErr => .error .llmConnectionError
  | .timeoutErr => .error .llmConnectionError

/-- Tenacity loop: attempt `k`, retry while the raised exception satisfies
`retryable` and fewer than `stop_after_attempt` attempts were made; with
`reraise=True` the last exception is re-raised as is. Returns the surfaced
result and the number of attempts actually made. Fuel is `3 - k + 1` at the
call site. -/
def tenacityGo (attempts : Nat → AttemptResult) (stopAfter : Nat) :
    Nat → Nat → (Except Exc Unit) × Nat
  | k, 0 => (chat_completion_body (attempts k), k)
  | k, fuel + 1 =>
    match chat_completion_body (attempts k) with
    | .ok r => (.ok r, k)
    | .error e =>
      if retryable e && k < stopAfter then
        tenacityGo attempts stopAfter (k + 1) fuel
      else
        (.error e, k)

/-- `chat_completion` as the caller sees it: the retry-wrapped body with
`stop_after_attempt(3)`. -/
def chat_completion (attempts : Nat → AttemptResult) : (Except Exc Unit) × Nat :=
  tenacityGo attempts 3 1 2

example : chat_completion (fun _ => .connectErr) = (.error .llmConnectionError, 1) := rfl
example : chat_completion (fun _ => .http429) = (.error .llmRateLimitError, 3) := rfl
example : chat_completion (fun _ => .success) = (.ok (), 1) := rfl

/-! ## app/core/llm.py — OpenRouterClient.chat_with_tools (lines 209–310)

```python
conversation = list(messages)
iterations = 0
while iterations < max_iterations:
    iterations += 1
    response = await self.chat_completion(
        messages=conversation,
        tools=tools if iterations < max_iterations else None, ...)
    ...aggregate usage...
    if response["tool_calls"]:
        ...append assistant turn, execute each tool, append tool turns...
    else:
        return {"content": response["content"], ..., "iterations": iterations, ...}
return {"content": response.get("content") or "I apologize, ...", "iterations": iterations, ...}
```

The LLM is an external collaborator: the response of round-trip number `k`
(1-based) is `responses k`. Since the claims quantify over *every* sequence of
responses, indexing responses by round-trip number subsumes any dependence of
the model's answer on the accumulated conversation, so the conversation list
itself (which only feeds the next `chat_completion` call) is not carried.
Tool execution results are likewise only appended to that list and cannot
affect control flow. `toolFlags` records, per round-trip actually made,
whether the `tools` argument was passed (`iterations < max_iterations`) —
this instruments the call at line 250–254. -/

structure LLMResp where
  content : Option String
  tool_calls : List String
deriving DecidableEq, Repr

structure ChatOut where
  content : Option String
  iterations : Nat
  toolFlags : List Bool
deriving DecidableEq, Repr

/-- The fixed apology of line 306. -/
def apologyMsg : String := "I apologize, but I need more information to help you."

/-- The while-loop of chat_with_tools. `iter` = iterations so far, `fuel` =
`max_iterations - iter` remaining loop entries. At fuel 0 the loop condition
fails and the post-loop return runs on the last response received, which is
`responses iter`. -/
def chatGo (responses : Nat → LLMResp) (maxIter : Nat) : Nat → Nat → ChatOut
  | iter, 0 => ⟨some (pyOrDefault (responses iter).content apologyMsg), iter, []⟩
  | iter, fuel + 1 =>
    if (responses (iter + 1)).tool_calls ≠ [] then
      let rest := chatGo responses maxIter (iter + 1) fuel
      ⟨rest.content, rest.iterations, decide (iter + 1 < maxIter) :: rest.toolFlags⟩
    else
      ⟨(responses (iter + 1)).content, iter + 1, [decide (iter + 1 < maxIter)]⟩

/-- chat_with_tools. For `max_iterations = 0` the Python loop body never runs
and the final `response.get("content")` reads an unbound local
(`UnboundLocalError`): modelled as `none`. -/
def chat_with_tools (responses : Nat → LLMResp) (max_iterations : Nat) : Option ChatOut :=
  if max_iterations = 0 then none
  else some (chatGo responses max_iterations 0 max_iterations)

example :
    chat_with_tools (fun _ => ⟨some "", []⟩) 5 = some ⟨some "", 1, [true]⟩ := by decide
example :
    chat_with_tools (fun _ => ⟨some "partial answer", ["call"]⟩) 3
      = some ⟨some "partial answer", 3, [true, true, false]⟩ := by decide
example :
    chat_with_tools (fun _ => ⟨none, ["call"]⟩) 2
      = some ⟨some apologyMsg, 2, [true, false]⟩ := by decide

/-! ## app/api/webhooks/bolna.py — process_confirmation_call (lines 626–746)

The Redis store is modelled as the ordered list of `pending_confirmation:*`
entries that `redis_client.keys(...)` returns, each with what
`redis_client.get(key)` yields for it: `.missing` for a falsy value (the key
lapsed between `keys` and `get`), `.invalid` for a value `json.loads` rejects
(skipped without deletion), `.valid order_id` for a parsed payload with its
`order_id` field (`.get("order_id", "")`, so a payload without the field
carries `""`). The CHICX notification `chicx_client.confirm_order(...)` is an
external collaborator: `notifier order_id confirmed notes` yields `.ok` or
`.error` (a raised exception, caught by the surrounding
`except Exception: logger.error(...)` which only logs). -/

inductive RVal
  | missing
  | invalid
  | valid (order_id : String)
deriving DecidableEq, Repr

structure PendingEntry where
  key : String
  val : RVal
deriving DecidableEq, Repr

structure ConfOutcome where
  order_id : String
  confirmed : Bool
  notes : String
deriving DecidableEq, Repr

/-- Lines 699–700. -/
def positive_keywords : List String :=
  ["yes", "confirm", "haan", "theek", "ok", "okay", "proceed", "correct", "sure"]

def negative_keywords : List String :=
  ["no", "cancel", "nahi", "wrong", "incorrect", "stop", "reject"]

/-- Line 703: `sum(1 for kw in positive_keywords if kw in transcript_lower)` —
the number of keywords of the list that occur in the (already lowercased)
transcript. -/
def positive_count (transcript_lower : String) : Nat :=
  (positive_keywords.filter (fun kw => strContains transcript_lower kw)).length

/-- Line 704, the negative counterpart. -/
def negative_count (transcript_lower : String) : Nat :=
  (negative_keywords.filter (fun kw => strContains transcript_lower kw)).length

/-- Line 690: `status in ("missed", "no-answer", "busy", "failed")`. -/
def call_not_connected (status : String) : Bool :=
  status = "missed" || status = "no-answer" || status = "busy" || status = "failed"

/-- The per-entry confirmation analysis of lines 687–717 (it depends only on
the call status and transcript, not on the entry). Returns
(confirmed, confirmation_notes). -/
def analyze_confirmation (status : String) (transcript : Option String) : Bool × String :=
  if call_not_connected status then
    (false, "Call not answered: " ++ status)
  else if truthyS transcript then
    let transcript_lower := pyLower (transcript.getD "")
    if positive_count transcript_lower > negative_count transcript_lower then
      (true, "Customer confirmed order via voice call")
    else if negative_count transcript_lower > 0 then
      (false, "Customer rejected/cancelled order via voice call")
    else
      (false, "Customer response unclear")
  else
    (false, "No transcript available")

/-- Reference decision procedure written from the specification text (spec
section 4.6): "If the call never connected (missed/no-answer/busy/failed),
the outcome is confirmed=false ... transcript is not consulted. Otherwise
count occurrences of an affirmative keyword set vs. a negative keyword set
(case-insensitive ...) in the transcript; strict majority of affirmative →
confirmed; any negative keyword present with no affirmative majority →
rejected; no signal at all → rejected". A keyword "occurs" when it appears
in the case-folded transcript; the decision below returns the confirmed
flag the spec prescribes. This definition follows the spec wording, for
comparison with `analyze_confirmation`, which is translated from the code. -/
def spec_confirmation_decision (status : String) (transcript : Option String) : Bool :=
  if call_not_connected status then
    false
  else
    let t := pyLower (transcript.getD "")
    positive_count t > negative_count t

structure ConfirmResult where
  outcome : Option ConfOutcome
  pending : List PendingEntry
  notifications : List (String × Bool × String)
deriving DecidableEq, Repr

/-- The `for key in keys:` scan of lines 673–738: skip falsy or unparsable
values (without deleting them), and on the first parsable entry analyze the
transcript, send the confirmation callback (its failure is caught and only
logged — both branches of the `match` below continue identically), delete
that one key, and return the outcome. -/
def process_go (notifier : String → Bool → String → Except Unit Unit)
    (status : String) (transcript : Option String) :
    List PendingEntry → ConfirmResult
  | [] => ⟨none, [], []⟩
  | e :: rest =>
    match e.val with
    | .missing =>
      let r := process_go notifier status transcript rest
      ⟨r.outcome, e :: r.pending, r.notifications⟩
    | .invalid =>
      let r := process_go notifier status transcript rest
      ⟨r.outcome, e :: r.pending, r.notifications⟩
    | .valid order_id =>
      let a := analyze_confirmation status transcript
      match notifier order_id a.1 a.2 with
      | .ok _ => ⟨some ⟨order_id, a.1, a.2⟩, rest, [(order_id, a.1, a.2)]⟩
      | .error _ => ⟨some ⟨order_id, a.1, a.2⟩, rest, [(order_id, a.1, a.2)]⟩

/-- process_confirmation_call (lines 626–746). `call_id` is received but never
used for matching — the scan pairs the completed call with whatever parsable
pending entry comes first. The `if not keys: return None` early exit coincides
with the empty-list case of the scan. -/
def process_confirmation_call (notifier : String → Bool → String → Except Unit Unit)
    (pending : List PendingEntry) (transcript : Option String) (status : String) :
    ConfirmResult :=
  process_go notifier status transcript pending

example :
    analyze_confirmation "completed" (some "yes, confirm")
      = (true, "Customer confirmed order via voice call") := by decide
example :
    analyze_confirmation "missed" (some "yes yes yes")
      = (false, "Call not answered: missed") := by decide
example :
    analyze_confirmation "completed" (some "NO not interested")
      = (false, "Customer rejected/cancelled order via voice call") := by decide
example :
    analyze_confirmation "completed" (some "hello hello")
      = (false, "Customer response unclear") := by decide
example :
    analyze_confirmation "completed" none = (false, "No transcript available") := by decide

/-! ## app/models/voice.py — Call (lines 30–63) and CallStatus (lines 21–27)

Only the columns the correlation claims touch are carried; `id` models the
generated-once internal primary key (a fresh `Nat` from the store, standing
for `uuid4`), timestamps are omitted. -/

inductive CallStatus
  | RESOLVED
  | ESCALATED
  | MISSED
  | FAILED
deriving DecidableEq, Repr

structure CallRec where
  id : Nat
  phone : String
  exotel_call_id : Option String
  bolna_call_id : Option String
  status : CallStatus
  duration_seconds : Option Nat
  language : Option String
  recording_url : Option String
deriving DecidableEq, Repr

/-- The call store: the `calls` table plus a fresh-id source. -/
structure DB where
  calls : List CallRec
  nextId : Nat
deriving DecidableEq, Repr

def emptyDB : DB := ⟨[], 0⟩

/-- Update the first record satisfying `p` (SQLAlchemy `scalar_one_or_none`
followed by mutating the matched row). -/
def updateFirst (p : CallRec → Bool) (f : CallRec → CallRec) : List CallRec → List CallRec
  | [] => []
  | c :: cs => if p c then f c :: cs else c :: updateFirst p f cs

/-! ## app/api/webhooks/bolna.py — handle_call_complete (lines 217–357)

`find_call` (lines 587–595) selects by `Call.bolna_call_id == bolna_call_id`
only — there is no lookup by any other key in this handler. -/

structure TelephonyData where
  recording_url : Option String
  from_number : Option String
  call_duration : Option Nat
deriving DecidableEq, Repr

structure CallCompletePayload where
  call_id : String
  status : String
  duration_seconds : Option Nat
  transcript : Option String
  language : Option String
  recording_url : Option String
  telephony_data : Option TelephonyData
  from_number : Option String
  user_phone : Option String
deriving DecidableEq, Repr

/-- Lines 231–237 together with the truthiness test the handler later applies
to the result (`if not phone`, line 280): the chain `payload.user_phone or
payload.from_number or (payload.telephony_data.from_number if
payload.telephony_data else None)`, then `if phone: phone =
normalize_phone(phone)` (the bolna-local normalizer). The final `phone`
value is falsy — and the create path discards the event — both when the
chain itself is falsy and when a truthy chain value normalizes to the empty
string (e.g. `"+"`): this model returns `some ph` with `ph ≠ ""` exactly
when the final `phone` is truthy, and `none` in both falsy cases. -/
def extract_phone (p : CallCompletePayload) : Option String :=
  let chain := pyOrS p.user_phone (pyOrS p.from_number
    (match p.telephony_data with
     | some td => td.from_number
     | none => none))
  if truthyS chain then
    let ph := normalize_phone_bolna (chain.getD "")
    if ph = "" then none else some ph
  else none

example :
    extract_phone ⟨"B1", "completed", none, none, none, none, none, none, some "+"⟩
      = none := by decide
example :
    extract_phone ⟨"B1", "completed", none, none, none, none, none, none,
      some "+91 98765-43210"⟩ = some "919876543210" := by decide

/-- Lines 240–242. -/
def extract_recording (p : CallCompletePayload) : Option String :=
  if truthyS p.recording_url then p.recording_url
  else match p.telephony_data with
    | some td => td.recording_url
    | none => p.recording_url

/-- Lines 244–247: `if not duration and payload.telephony_data and
payload.telephony_data.call_duration`. -/
def extract_duration (p : CallCompletePayload) : Option Nat :=
  if truthyN p.duration_seconds then p.duration_seconds
  else match p.telephony_data with
    | some td => if truthyN td.call_duration then td.call_duration else p.duration_seconds
    | none => p.duration_seconds

/-- The `status_map` dict of lines 250–260 with its
`.get(payload.status.lower(), CallStatus.RESOLVED)` default (line 261). -/
def bolna_status_map_get (s : String) : CallStatus :=
  if s = "completed" then .RESOLVED
  else if s = "resolved" then .RESOLVED
  else if s = "escalated" then .ESCALATED
  else if s = "transferred" then .ESCALATED
  else if s = "failed" then .FAILED
  else if s = "error" then .FAILED
  else if s = "missed" then .MISSED
  else if s = "no-answer" then .MISSED
  else if s = "busy" then .MISSED
  else .RESOLVED

/-- The mutation of an existing call at lines 267–275 (timestamps omitted).
It never touches `id`, `phone` or either correlation key. -/
def bolna_update (call_status : CallStatus) (duration : Option Nat)
    (language recording_url : Option String) (c : CallRec) : CallRec :=
  { c with
    status := call_status
    duration_seconds := if truthyN duration then duration else c.duration_seconds
    language := if truthyS language then language else c.language
    recording_url := if truthyS recording_url then recording_url else c.recording_url }

/-- handle_call_complete, the call-store part (user/conversation/transcript
rows and the confirmation hook touch other tables and are modelled
separately). Returns the new store. A payload whose `call_id` matches no
record and that carries no truthy phone is discarded
(`return {"status": "error", "reason": "missing_phone_number"}`, line 282). -/
def handle_call_complete (db : DB) (p : CallCompletePayload) : DB :=
  let phone := extract_phone p
  let recording_url := extract_recording p
  let duration := extract_duration p
  let call_status := bolna_status_map_get (pyLower p.status)
  match db.calls.find? (fun c => c.bolna_call_id = some p.call_id) with
  | some _ =>
    let calls' := updateFirst (fun c => c.bolna_call_id = some p.call_id)
      (bolna_update call_status duration p.language recording_url) db.calls
    { db with calls := calls' }
  | none =>
    match phone with
    | none => db
    | some ph =>
      { calls := db.calls ++ [{
          id := db.nextId
          phone := ph
          exotel_call_id := none
          bolna_call_id := some p.call_id
          status := call_status
          duration_seconds := duration
          language := p.language
          recording_url := recording_url }]
        nextId := db.nextId + 1 }

example :
    handle_call_complete emptyDB
      ⟨"B1", "completed", none, none, none, none, none, none, some "+"⟩ = emptyDB := by decide

/-! ## app/api/webhooks/exotel.py — handle_exotel_webhook (lines 73–185)

Form fields as the handler reads them; `DialWhomNumber` models the
truthiness of `data.get("DialWhomNumber") or data.get("legs")` (line 124).
Signature verification (an HTTP-boundary concern) is outside the model. -/

structure ExotelForm where
  CallSid : Option String
  From : String
  To : String
  Status : String
  Direction : String
  RecordingUrl : Option String
  Duration : Option Nat
  DialWhomNumber : Bool
deriving DecidableEq, Repr

/-- EXOTEL_STATUS_MAP (lines 31–37) with its
`.get(status_str, CallStatus.FAILED)` default (line 121). -/
def EXOTEL_STATUS_MAP_get (s : String) : CallStatus :=
  if s = "completed" then .RESOLVED
  else if s = "busy" then .MISSED
  else if s = "no-answer" then .MISSED
  else if s = "failed" then .FAILED
  else if s = "canceled" then .MISSED
  else .FAILED

/-- The mutation of an existing call at lines 139–147 (timestamps omitted). -/
def exotel_update (call_status : CallStatus) (recording_url : Option String)
    (duration : Option Nat) (c : CallRec) : CallRec :=
  { c with
    status := call_status
    recording_url := if truthyS recording_url then recording_url else c.recording_url
    duration_seconds := if truthyN duration then duration else c.duration_seconds }

/-- handle_exotel_webhook, the call-store part. A form without a truthy
`CallSid` is ignored (line 106–108); otherwise the handler finds by
`Call.exotel_call_id == call_sid` and updates, or creates a record carrying
only the exotel key (lines 133–181) — creation does not require a phone. -/
def handle_exotel_webhook (db : DB) (d : ExotelForm) : DB :=
  if !truthyS d.CallSid then db
  else
    let call_sid := d.CallSid.getD ""
    let from_number := normalize_phone_exotel d.From
    let to_number := normalize_phone_exotel d.To
    let status_str := pyLower d.Status
    let direction_str := pyLower d.Direction
    let call_status := if d.DialWhomNumber then .ESCALATED else EXOTEL_STATUS_MAP_get status_str
    let customer_phone := if direction_str = "inbound" then from_number else to_number
    match db.calls.find? (fun c => c.exotel_call_id = some call_sid) with
    | some _ =>
      let calls' := updateFirst (fun c => c.exotel_call_id = some call_sid)
        (exotel_update call_status d.RecordingUrl d.Duration) db.calls
      { db with calls := calls' }
    | none =>
      { calls := db.calls ++ [{
          id := db.nextId
          phone := customer_phone
          exotel_call_id := some call_sid
          bolna_call_id := none
          status := call_status
          duration_seconds := d.Duration
          language := none
          recording_url := d.RecordingUrl }]
        nextId := db.nextId + 1 }

/-- An inbound correlation event: one webhook delivery to either handler. -/
inductive WebhookEvent
  | bolna (p : CallCompletePayload)
  | exotel (d : ExotelForm)
deriving DecidableEq, Repr

def applyEvent (db : DB) : WebhookEvent → DB
  | .bolna p => handle_call_complete db p
  | .exotel d => handle_exotel_webhook db d

def applyEvents (db : DB) (evs : List WebhookEvent) : DB :=
  evs.foldl applyEvent db

/-! ## app/services/whatsapp.py — message deduplication (lines 301–321, 535–541)

Redis keys are modelled as an association list from key to absolute expiry
time; `EXISTS` is true iff the key is present and unexpired at the current
time `now`, `SETEX key ttl` stores expiry `now + ttl` (replacing any earlier
entry for the key). `process_message` runs the claim step

```python
if await self.is_duplicate_message(wa_message_id):
    return None
await self.mark_message_processed(wa_message_id)
```

sequentially: one operation at a time, as the claim's "sequence of
deduplication operations" states. -/

def MESSAGE_DEDUP_TTL_SECONDS : Nat := 5 * 60

abbrev RedisKV := List (String × Nat)

def redisLookup (st : RedisKV) (k : String) : Option Nat :=
  (st.find? (fun e => e.1 = k)).map (·.2)

/-- Redis EXISTS with TTL semantics: present and unexpired. -/
def redisExists (st : RedisKV) (k : String) (now : Nat) : Bool :=
  match redisLookup st k with
  | some expiry => now < expiry
  | none => false

/-- Redis SETEX: store `k` with expiry `now + ttl`. -/
def redisSetex (st : RedisKV) (k : String) (ttl now : Nat) : RedisKV :=
  (k, now + ttl) :: st.filter (fun e => e.1 ≠ k)

/-- is_duplicate_message (lines 301–312): `EXISTS wa:msg:processed:<id>`. -/
def is_duplicate_message (st : RedisKV) (wa_message_id : String) (now : Nat) : Bool :=
  redisExists st ("wa:msg:processed:" ++ wa_message_id) now

/-- mark_message_processed (lines 314–321): `SETEX` with the dedup TTL. -/
def mark_message_processed (st : RedisKV) (wa_message_id : String) (now : Nat) : RedisKV :=
  redisSetex st ("wa:msg:processed:" ++ wa_message_id) MESSAGE_DEDUP_TTL_SECONDS now

/-- The claim step of process_message (lines 535–541): check, and if fresh,
record. Returns whether the message was admitted for processing and the
store afterwards. A rejected replay performs no store write (and
process_message returns `None` before any further side effect). -/
def claim_step (st : RedisKV) (wa_message_id : String) (now : Nat) : Bool × RedisKV :=
  if is_duplicate_message st wa_message_id now then
    (false, st)
  else
    (true, mark_message_processed st wa_message_id now)

/-- Run the claim step for the same message id at each time in `ts`,
collecting the admission decisions. -/
def run_claims (wa_message_id : String) : RedisKV → List Nat → List Bool × RedisKV
  | st, [] => ([], st)
  | st, t :: ts =>
    let (b, st') := claim_step st wa_message_id t
    let (bs, st'') := run_claims wa_message_id st' ts
    (b :: bs, st'')

example :
    (run_claims "m1" [] [0, 1, 299]).1 = [true, false, false] := by decide
example :
    (run_claims "m1" [] [0, 300]).1 = [true, true] := by decide

/-! # Supporting lemmas -/

theorem pyOrDefault_ne_empty (o : Option String) (d : String) (hd : d ≠ "") :
    pyOrDefault o d ≠ "" := by
  cases o with
  | none => simpa [pyOrDefault] using hd
  | some s =>
    by_cases hs : s = ""
    · simpa [pyOrDefault, hs] using hd
    · simp [pyOrDefault, hs]

theorem chatGo_iter_le (r : Nat → LLMResp) (m : Nat) :
    ∀ fuel iter, iter ≤ (chatGo r m iter fuel).iterations ∧
      (chatGo r m iter fuel).iterations ≤ iter + fuel := by
  intro fuel
  induction fuel with
  | zero => intro iter; simp [chatGo]
  | succ n ih =>
    intro iter
    by_cases h : (r (iter + 1)).tool_calls ≠ []
    · have hrec := ih (iter + 1)
      simp only [chatGo, if_pos h]
      omega
    · simp only [chatGo, if_neg h]
      omega

theorem chatGo_flags (r : Nat → LLMResp) (m : Nat) :
    ∀ fuel iter, (chatGo r m iter fuel).toolFlags
      = (List.range' (iter + 1) ((chatGo r m iter fuel).iterations - iter)).map
          (fun c => decide (c < m)) := by
  intro fuel
  induction fuel with
  | zero => intro iter; simp [chatGo]
  | succ n ih =>
    intro iter
    by_cases h : (r (iter + 1)).tool_calls ≠ []
    · have hrec := ih (iter + 1)
      have hle := chatGo_iter_le r m n (iter + 1)
      simp only [chatGo, if_pos h]
      have hd : (chatGo r m (iter + 1) n).iterations - iter
          = ((chatGo r m (iter + 1) n).iterations - (iter + 1)) + 1 := by omega
      rw [hd, List.range'_succ, List.map_cons, hrec]
    · simp only [chatGo, if_neg h]
      simp

theorem chatGo_content (r : Nat → LLMResp) (m : Nat) :
    ∀ fuel iter,
      ((∀ i, iter < i → i ≤ iter + fuel → (r i).tool_calls ≠ []) ∧
        (chatGo r m iter fuel).iterations = iter + fuel ∧
        (chatGo r m iter fuel).content
          = some (pyOrDefault (r (iter + fuel)).content apologyMsg)) ∨
      (iter < (chatGo r m iter fuel).iterations ∧
        (r (chatGo r m iter fuel).iterations).tool_calls = [] ∧
        (chatGo r m iter fuel).content = (r (chatGo r m iter fuel).iterations).content) := by
  intro fuel
  induction fuel with
  | zero =>
    intro iter
    left
    refine ⟨?_, by simp [chatGo], by simp [chatGo]⟩
    intro i h1 h2
    omega
  | succ n ih =>
    intro iter
    by_cases h : (r (iter + 1)).tool_calls ≠ []
    · rcases ih (iter + 1) with ⟨hall, hit, hc⟩ | ⟨h1, h2, h3⟩
      · left
        have he : iter + 1 + n = iter + (n + 1) := by omega
        refine ⟨?_, ?_, ?_⟩
        · intro i hi1 hi2
          rcases Nat.lt_or_ge i (iter + 2) with hlt | hge
          · have : i = iter + 1 := by omega
            simpa [this] using h
          · exact hall i (by omega) (by omega)
        · simp only [chatGo, if_pos h]
          omega
        · simp only [chatGo, if_pos h]
          rw [hc, ← he]
      · right
        simp only [chatGo, if_pos h]
        exact ⟨by omega, h2, h3⟩
    · right
      simp only [chatGo, if_neg h]
      simp only [not_not] at h
      exact ⟨by omega, h, trivial⟩

/-! # Claim C1 — chat_with_tools loop bound and returned content -/

/-- C1 counterexample: the claim says the content chat_with_tools returns "is
never an empty string", but when the model's very first response carries no
tool calls and empty content, the loop's terminal branch (line 296) returns
that content verbatim: the run below returns the empty string (and not the
apology) at the default max_iterations = 5. -/
theorem C1_empty_content_counterexample :
    chat_with_tools (fun _ => ⟨some "", []⟩) 5 = some ⟨some "", 1, [true]⟩ ∧
    ("" : String) ≠ apologyMsg := by
  constructor
  · decide
  · decide

/-- C1 (amended): for every sequence of LLM responses and every
max_iterations ≥ 1, chat_with_tools makes between 1 and max_iterations LLM
round-trips, passes the tools list on round-trip `c` exactly when
`c < max_iterations` (so tool calling is withheld on the final permitted
iteration), and either (cap path, taken when every permitted response
requests tool calls) returns the final iteration's content when that is
non-empty and otherwise the fixed apology — never an empty or null content on
this path — or (terminal path) returns the first no-tool-call response's
content verbatim, which may be empty or null. -/
theorem C1_loop_bound_amended (r : Nat → LLMResp) (m : Nat) (h : 1 ≤ m) :
    ∃ out, chat_with_tools r m = some out ∧
      1 ≤ out.iterations ∧ out.iterations ≤ m ∧
      out.toolFlags = (List.range' 1 out.iterations).map (fun c => decide (c < m)) ∧
      (((∀ i, 1 ≤ i → i ≤ m → (r i).tool_calls ≠ []) ∧ out.iterations = m ∧
          out.content = some (pyOrDefault (r m).content apologyMsg) ∧
          (∃ s, out.content = some s ∧ s ≠ "")) ∨
        ((r out.iterations).tool_calls = [] ∧ out.content = (r out.iterations).content)) := by
  have hm : m ≠ 0 := by omega
  refine ⟨chatGo r m 0 m, by simp [chat_with_tools, hm], ?_, ?_, ?_, ?_⟩
  · rcases chatGo_content r m m 0 with ⟨_, hit, _⟩ | ⟨h1, _, _⟩
    · omega
    · omega
  · have := chatGo_iter_le r m m 0
    omega
  · have := chatGo_flags r m m 0
    simpa using this
  · rcases chatGo_content r m m 0 with ⟨hall, hit, hc⟩ | ⟨h1, h2, h3⟩
    · left
      refine ⟨?_, by omega, by simpa using hc, ?_⟩
      · intro i hi1 hi2
        exact hall i (by omega) (by omega)
      · refine ⟨pyOrDefault (r m).content apologyMsg, by simpa using hc, ?_⟩
        exact pyOrDefault_ne_empty _ _ (by decide)
    · right
      exact ⟨h2, h3⟩

/-- C1 witness: the amended loop theorem applied to the concrete response
sequence that always requests a tool call, at max_iterations = 2. -/
theorem C1_loop_bound_witness :
    ∃ out, chat_with_tools (fun _ => ⟨some "looked up", ["tc1"]⟩) 2 = some out ∧
      1 ≤ out.iterations ∧ out.iterations ≤ 2 ∧
      out.toolFlags = (List.range' 1 out.iterations).map (fun c => decide (c < 2)) ∧
      (((∀ i, 1 ≤ i → i ≤ 2 → ((fun (_ : Nat) => (⟨some "looked up", ["tc1"]⟩ : LLMResp)) i).tool_calls ≠ []) ∧
          out.iterations = 2 ∧
          out.content = some (pyOrDefault ((fun (_ : Nat) => (⟨some "looked up", ["tc1"]⟩ : LLMResp)) 2).content apologyMsg) ∧
          (∃ s, out.content = some s ∧ s ≠ "")) ∨
        (((fun (_ : Nat) => (⟨some "looked up", ["tc1"]⟩ : LLMResp)) out.iterations).tool_calls = [] ∧
          out.content = ((fun (_ : Nat) => (⟨some "looked up", ["tc1"]⟩ : LLMResp)) out.iterations).content)) :=
  C1_loop_bound_amended (fun _ => ⟨some "looked up", ["tc1"]⟩) 2 (by decide)

/-! # Claim C8 — chat_completion retry policy -/

theorem tenacityGo_error_typed (attempts : Nat → AttemptResult) (sa : Nat) :
    ∀ fuel k e, (tenacityGo attempts sa k fuel).1 = .error e →
      e = .llmRateLimitError ∨ e = .llmConnectionError := by
  intro fuel
  induction fuel with
  | zero =>
    intro k e h
    simp only [tenacityGo] at h
    cases hat : attempts k <;> simp [chat_completion_body, hat] at h <;> simp [h]
  | succ n ih =>
    intro k e h
    simp only [tenacityGo] at h
    cases hat : attempts k <;> simp only [chat_completion_body, hat] at h
    · exact absurd h (by simp)
    · by_cases hc : retryable Exc.llmRateLimitError && k < sa
      · rw [if_pos hc] at h
        exact ih (k + 1) e h
      · rw [if_neg hc] at h
        simp at h
        simp [h]
    · by_cases hc : retryable Exc.llmConnectionError && k < sa
      · rw [if_pos hc] at h
        exact ih (k + 1) e h
      · rw [if_neg hc] at h
        simp at h
        simp [h]
    · by_cases hc : retryable Exc.llmConnectionError && k < sa
      · rw [if_pos hc] at h
        exact ih (k + 1) e h
      · rw [if_neg hc] at h
        simp at h
        simp [h]

/-- C8: evaluation of the retry-wrapped chat_completion at the failing
inputs. A transport that raises httpx.ConnectError (or TimeoutException) on
every attempt surfaces after a SINGLE attempt — the body translates the
exception to LLMConnectionError (lines 197–202) before the tenacity
decorator sees it, and LLMConnectionError is not in the decorator's
retry_if_exception_type tuple (line 77) — contradicting the decorator's own
retry list and the docstring "LLMConnectionError: If connection to API fails
after retries" (line 112). Rate-limit errors are retried to exhaustion (3
attempts) as documented, and the error that surfaces is always a typed
LLMError, never a raw transport exception. -/
theorem C8_connection_error_not_retried :
    chat_completion (fun _ => .connectErr) = (.error .llmConnectionError, 1) ∧
    chat_completion (fun _ => .timeoutErr) = (.error .llmConnectionError, 1) ∧
    chat_completion (fun _ => .http429) = (.error .llmRateLimitError, 3) ∧
    (∀ attempts e, (chat_completion attempts).1 = .error e →
      e = .llmRateLimitError ∨ e = .llmConnectionError) :=
  ⟨rfl, rfl, rfl, fun attempts e h => tenacityGo_error_typed attempts 3 2 1 e h⟩

/-! # Claim C7 — provider status mapping -/

/-- C7 counterexample: the claim's fixed table sends "canceled" to missed and
"escalated"/"transferred" to escalated in both handlers; but the Bolna
status_map has no "canceled" row and its default is RESOLVED, and
EXOTEL_STATUS_MAP has no "escalated"/"transferred"/"missed"/"error" rows and
its default is FAILED. -/
theorem C7_status_map_counterexample :
    bolna_status_map_get "canceled" = .RESOLVED ∧ CallStatus.RESOLVED ≠ .MISSED ∧
    EXOTEL_STATUS_MAP_get "escalated" = .FAILED ∧ CallStatus.FAILED ≠ .ESCALATED ∧
    EXOTEL_STATUS_MAP_get "missed" = .FAILED ∧
    EXOTEL_STATUS_MAP_get "error" = .FAILED := by
  refine ⟨rfl, by decide, rfl, by decide, rfl, rfl⟩

/-- C7 (amended): each handler maps provider statuses by its own fixed table
and never raises on an unknown status, but the two tables differ and neither
matches the claim's single table. Bolna: completed/resolved→resolved,
escalated/transferred→escalated, failed/error→failed,
missed/no-answer/busy→missed, and every other status (including "canceled")
defaults to resolved. Exotel: completed→resolved, busy/no-answer/canceled→
missed, failed→failed, and every other status (including "missed", "error",
"escalated", "transferred") defaults to failed. -/
theorem C7_status_map_amended :
    (bolna_status_map_get "completed" = .RESOLVED ∧
     bolna_status_map_get "resolved" = .RESOLVED ∧
     bolna_status_map_get "escalated" = .ESCALATED ∧
     bolna_status_map_get "transferred" = .ESCALATED ∧
     bolna_status_map_get "failed" = .FAILED ∧
     bolna_status_map_get "error" = .FAILED ∧
     bolna_status_map_get "missed" = .MISSED ∧
     bolna_status_map_get "no-answer" = .MISSED ∧
     bolna_status_map_get "busy" = .MISSED) ∧
    (∀ s, s ∉ (["completed", "resolved", "escalated", "transferred", "failed",
        "error", "missed", "no-answer", "busy"] : List String) →
      bolna_status_map_get s = .RESOLVED) ∧
    (EXOTEL_STATUS_MAP_get "completed" = .RESOLVED ∧
     EXOTEL_STATUS_MAP_get "busy" = .MISSED ∧
     EXOTEL_STATUS_MAP_get "no-answer" = .MISSED ∧
     EXOTEL_STATUS_MAP_get "failed" = .FAILED ∧
     EXOTEL_STATUS_MAP_get "canceled" = .MISSED) ∧
    (∀ s, s ∉ (["completed", "busy", "no-answer", "failed", "canceled"] : List String) →
      EXOTEL_STATUS_MAP_get s = .FAILED) := by
  refine ⟨by decide, ?_, by decide, ?_⟩
  · intro s hs
    simp only [List.mem_cons, List.not_mem_nil, or_false, not_or] at hs
    obtain ⟨h1, h2, h3, h4, h5, h6, h7, h8, h9⟩ := hs
    simp [bolna_status_map_get, h1, h2, h3, h4, h5, h6, h7, h8, h9]
  · intro s hs
    simp only [List.mem_cons, List.not_mem_nil, or_false, not_or] at hs
    obtain ⟨h1, h2, h3, h4, h5⟩ := hs
    simp [EXOTEL_STATUS_MAP_get, h1, h2, h3, h4, h5]

/-! # Claim C5 — confirmation outcome decision procedure -/

theorem getD_empty_of_not_truthy (t : Option String) (h : truthyS t = false) :
    t.getD "" = "" := by
  cases t with
  | none => rfl
  | some s =>
    simp [truthyS] at h
    simpa using h

/-- C5: the outcome of the completed-call classifier equals the spec's
reference decision procedure. When the termination status is
missed/no-answer/busy/failed the outcome is confirmed=false with the
"Call not answered" note for every transcript (the transcript is not
consulted); otherwise the keyword counts decide: the confirmed flag always
equals `spec_confirmation_decision` (strict affirmative majority), a negative
signal without an affirmative majority yields the rejected note, no signal
yields the "unclear" note, and a confirmed=true outcome is only ever produced
by a strict affirmative majority — ambiguity never confirms. -/
theorem C5_confirmation_matches_spec :
    (∀ s t, call_not_connected s = true →
      analyze_confirmation s t = (false, "Call not answered: " ++ s)) ∧
    (∀ s t, (analyze_confirmation s t).1 = spec_confirmation_decision s t) ∧
    (∀ s t, call_not_connected s = false → truthyS t = true →
      negative_count (pyLower (t.getD "")) ≥ positive_count (pyLower (t.getD "")) →
      0 < negative_count (pyLower (t.getD "")) →
      analyze_confirmation s t = (false, "Customer rejected/cancelled order via voice call")) ∧
    (∀ s t, call_not_connected s = false → truthyS t = true →
      positive_count (pyLower (t.getD "")) = 0 → negative_count (pyLower (t.getD "")) = 0 →
      analyze_confirmation s t = (false, "Customer response unclear")) ∧
    (∀ s t, (analyze_confirmation s t).1 = true →
      positive_count (pyLower (t.getD "")) > negative_count (pyLower (t.getD ""))) := by
  refine ⟨?_, ?_, ?_, ?_, ?_⟩
  · intro s t hc
    simp [analyze_confirmation, hc]
  · intro s t
    by_cases hc : call_not_connected s
    · simp [analyze_confirmation, spec_confirmation_decision, hc]
    · by_cases ht : truthyS t
      · by_cases hp : positive_count (pyLower (t.getD "")) > negative_count (pyLower (t.getD ""))
        · simp [analyze_confirmation, spec_confirmation_decision, hc, ht, hp]
        · by_cases hn : negative_count (pyLower (t.getD "")) > 0 <;>
            simp [analyze_confirmation, spec_confirmation_decision, hc, ht, hp, hn]
      · have h0 : t.getD "" = "" := getD_empty_of_not_truthy t (by simpa using ht)
        have hpz : positive_count (pyLower "") = 0 := by decide
        have hnz : negative_count (pyLower "") = 0 := by decide
        simp [analyze_confirmation, spec_confirmation_decision, hc, ht, h0, hpz, hnz]
  · intro s t hc ht hge hn
    have hp : ¬ positive_count (pyLower (t.getD "")) > negative_count (pyLower (t.getD "")) := by
      omega
    simp [analyze_confirmation, hc, ht, hp, hn]
  · intro s t hc ht hpz hnz
    simp [analyze_confirmation, hc, ht, hpz, hnz]
  · intro s t h1
    by_cases hc : call_not_connected s
    · simp [analyze_confirmation, hc] at h1
    · by_cases ht : truthyS t
      · by_cases hp : positive_count (pyLower (t.getD "")) > negative_count (pyLower (t.getD ""))
        · exact hp
        · by_cases hn : negative_count (pyLower (t.getD "")) > 0 <;>
            simp [analyze_confirmation, hc, ht, hp, hn] at h1
      · simp [analyze_confirmation, hc, ht] at h1

/-! # Claim C4 — get_order_status phone authorization -/

/-- The sound half of the authorization invariant, which the code does
implement: order contents (a `some` status) are only ever returned when the
lookup found an order whose normalized phone equals the normalized caller
phone. -/
theorem get_order_status_requires_phone_match
    (order_id : String) (user_phone : Option String) (lookup : OrderLookupResult)
    (h : (execute_get_order_status order_id user_phone lookup).status.isSome) :
    ∃ o, lookup = .found o ∧
      normalize_phone (user_phone.getD "") = normalize_phone o.phone := by
  by_cases h1 : order_id = ""
  · simp [execute_get_order_status, h1] at h
  · by_cases h2 : truthyS user_phone
    · cases lookup with
      | err => simp [execute_get_order_status, h1, h2] at h
      | notFound => simp [execute_get_order_status, h1, h2] at h
      | found o =>
        refine ⟨o, rfl, ?_⟩
        by_cases h3 : normalize_phone (user_phone.getD "") ≠ normalize_phone o.phone
        · simp [execute_get_order_status, h1, h2, h3] at h
        · simpa using h3
    · simp [execute_get_order_status, h1, h2] at h

/-- Witness for the authorization lemma: an authorized lookup at a concrete
matching caller. -/
theorem get_order_status_requires_phone_match_witness :
    ∃ o, OrderLookupResult.found ⟨"+919876543210", "shipped", none⟩ = .found o ∧
      normalize_phone ((some "9876543210").getD "") = normalize_phone o.phone :=
  get_order_status_requires_phone_match "ORD1" (some "9876543210")
    (.found ⟨"+919876543210", "shipped", none⟩) (by decide)

/-- C4: evaluation at the failing inputs. The normalization helper's own
docstring promises normalize_phone("91 9876543210") == "+919876543210", but
the implementation handles the 12-digit form with an off-by-one length test
(len == 11 for a "91"-led number) and the leading-0 form only at len == 13
("+910…"), so both forms fall through unchanged; consequently the rightful
owner calling from the 12-digit or 0-led form of the very phone stored on
the order is denied with the account-mismatch message. -/
theorem C4_normalization_code_bug :
    normalize_phone "91 9876543210" = "919876543210" ∧
    ("919876543210" : String) ≠ "+919876543210" ∧
    normalize_phone "09876543210" = "09876543210" ∧
    normalize_phone "9876543210" = "+919876543210" ∧
    (execute_get_order_status "ORD1" (some "91 9876543210")
        (.found ⟨"9876543210", "shipped", none⟩)).status = none ∧
    (execute_get_order_status "ORD1" (some "91 9876543210")
        (.found ⟨"9876543210", "shipped", none⟩)).message
      = "Order ORD1 not found in your account. Please check the order ID." := by
  refine ⟨by decide, by decide, by decide, by decide, by decide, by decide⟩

/-! # Claims C6 and C10 — pending-confirmation consumption -/

/-- C10: confirmation delivery and ledger consumption are not atomic. The
entire result of process_confirmation_call — outcome, remaining ledger and
the single notification attempt — is independent of whether the outbound
confirm_order call succeeds or raises (the exception is only logged), and
whenever an outcome is produced exactly one ledger entry has been deleted
and exactly one notification was attempted. -/
theorem C10_notify_failure_still_consumes :
    (∀ n₁ n₂ pending t s,
      process_confirmation_call n₁ pending t s = process_confirmation_call n₂ pending t s) ∧
    (∀ pending t s o,
      (process_confirmation_call (fun _ _ _ => .error ()) pending t s).outcome = some o →
        (process_confirmation_call (fun _ _ _ => .error ()) pending t s).pending.length + 1
            = pending.length ∧
        (process_confirmation_call (fun _ _ _ => .error ()) pending t s).notifications
            = [(o.order_id, o.confirmed, o.notes)]) := by
  constructor
  · intro n₁ n₂ pending t s
    induction pending with
    | nil => rfl
    | cons e rest ih =>
      cases hv : e.val with
      | missing =>
        simp only [process_confirmation_call, process_go, hv] at *
        rw [ih]
      | invalid =>
        simp only [process_confirmation_call, process_go, hv] at *
        rw [ih]
      | valid oid =>
        simp only [process_confirmation_call, process_go, hv]
        cases n₁ oid (analyze_confirmation s t).1 (analyze_confirmation s t).2 <;>
          cases n₂ oid (analyze_confirmation s t).1 (analyze_confirmation s t).2 <;> rfl
  · intro pending t s o
    induction pending with
    | nil => intro h; simp [process_confirmation_call, process_go] at h
    | cons e rest ih =>
      intro h
      cases hv : e.val with
      | missing =>
        simp only [process_confirmation_call, process_go, hv] at h ⊢
        have := ih h
        constructor
        · simpa using this.1
        · exact this.2
      | invalid =>
        simp only [process_confirmation_call, process_go, hv] at h ⊢
        have := ih h
        constructor
        · simpa using this.1
        · exact this.2
      | valid oid =>
        simp only [process_confirmation_call, process_go, hv] at h ⊢
        obtain rfl : o = ⟨oid, (analyze_confirmation s t).1, (analyze_confirmation s t).2⟩ := by
          simpa using h.symm
        exact ⟨rfl, rfl⟩

/-- C6 counterexample: with two pending entries in the ledger, resolving a
completed call consumes the first entry and returns its outcome; replaying
the very same call-completion event does NOT find an empty ledger — it
consumes the second, unrelated entry and produces a second outcome, because
the scan matches any parsable entry rather than the call's own order. -/
theorem C6_replay_counterexample :
    process_confirmation_call (fun _ _ _ => .ok ())
        [⟨"pending_confirmation:A", .valid "A"⟩, ⟨"pending_confirmation:B", .valid "B"⟩]
        (some "yes, confirm") "completed"
      = ⟨some ⟨"A", true, "Customer confirmed order via voice call"⟩,
         [⟨"pending_confirmation:B", .valid "B"⟩],
         [("A", true, "Customer confirmed order via voice call")]⟩ ∧
    process_confirmation_call (fun _ _ _ => .ok ())
        [⟨"pending_confirmation:B", .valid "B"⟩] (some "yes, confirm") "completed"
      = ⟨some ⟨"B", true, "Customer confirmed order via voice call"⟩, [],
         [("B", true, "Customer confirmed order via voice call")]⟩ ∧
    (some (⟨"B", true, "Customer confirmed order via voice call"⟩ : ConfOutcome)) ≠ none := by
  refine ⟨by decide, by decide, by decide⟩

/-- C6 (amended): each resolution consumes exactly one parsable
PendingConfirmation entry when one exists (a run that produces no outcome
leaves the ledger untouched, a run that produces an outcome deletes exactly
one entry), and resolution is idempotent precisely in the intended
single-outstanding-confirmation state: when the consumed entry was the only
pending entry, a replayed completion event finds an empty ledger and performs
no action — but with further pending entries a replay consumes another entry
(see the counterexample). -/
theorem C6_exactly_one_consumed_amended :
    (∀ n pending t s, (process_confirmation_call n pending t s).outcome = none →
      (process_confirmation_call n pending t s).pending = pending) ∧
    (∀ n pending t s o, (process_confirmation_call n pending t s).outcome = some o →
      (process_confirmation_call n pending t s).pending.length + 1 = pending.length) ∧
    (∀ n k oid t s,
      (process_confirmation_call n [⟨k, .valid oid⟩] t s).pending = [] ∧
      (process_confirmation_call n [⟨k, .valid oid⟩] t s).outcome
        = some ⟨oid, (analyze_confirmation s t).1, (analyze_confirmation s t).2⟩ ∧
      process_confirmation_call n [] t s = ⟨none, [], []⟩) := by
  refine ⟨?_, ?_, ?_⟩
  · intro n pending t s
    induction pending with
    | nil => intro _; rfl
    | cons e rest ih =>
      intro h
      simp only [process_confirmation_call] at ih
      cases hv : e.val with
      | missing =>
        simp only [process_confirmation_call, process_go, hv] at h ⊢
        rw [ih h]
      | invalid =>
        simp only [process_confirmation_call, process_go, hv] at h ⊢
        rw [ih h]
      | valid oid =>
        simp only [process_confirmation_call, process_go, hv] at h
        cases hn : n oid (analyze_confirmation s t).1 (analyze_confirmation s t).2 <;>
          rw [hn] at h <;> simp at h
  · intro n pending t s o
    induction pending with
    | nil => intro h; simp [process_confirmation_call, process_go] at h
    | cons e rest ih =>
      intro h
      simp only [process_confirmation_call] at ih
      cases hv : e.val with
      | missing =>
        simp only [process_confirmation_call, process_go, hv] at h ⊢
        simpa using ih h
      | invalid =>
        simp only [process_confirmation_call, process_go, hv] at h ⊢
        simpa using ih h
      | valid oid =>
        simp only [process_confirmation_call, process_go, hv] at h ⊢
        cases hn : n oid (analyze_confirmation s t).1 (analyze_confirmation s t).2 <;> simp
  · intro n k oid t s
    refine ⟨?_, ?_, rfl⟩ <;>
      simp only [process_confirmation_call, process_go] <;>
      cases hn : n oid (analyze_confirmation s t).1 (analyze_confirmation s t).2 <;>
      simp

/-! # Claim C9 — message deduplication -/

theorem run_claims_all_false (x : String) (exp : Nat) :
    ∀ ts st, redisLookup st ("wa:msg:processed:" ++ x) = some exp →
      (∀ t ∈ ts, t < exp) →
      (run_claims x st ts).1 = ts.map (fun _ => false) ∧ (run_claims x st ts).2 = st := by
  intro ts
  induction ts with
  | nil => intro st _ _; exact ⟨rfl, rfl⟩
  | cons t ts ih =>
    intro st h1 h2
    have hdup : is_duplicate_message st x t = true := by
      simp only [is_duplicate_message, redisExists, h1]
      simpa using h2 t (by simp)
    have hrec := ih st h1 (fun u hu => h2 u (by simp [hu]))
    simp only [run_claims, claim_step, hdup, if_pos]
    exact ⟨by rw [List.map_cons, hrec.1], hrec.2⟩

/-- C9: the claim step admits a message id exactly once per TTL window. From
any store in which the id is not marked (fresh or expired), the first claim
at time t0 is admitted and records the id; every further claim of the same id
at a time before the recorded expiry t0 + MESSAGE_DEDUP_TTL_SECONDS is
rejected as a replay (and, since the rejected path returns before
mark_message_processed and any further processing, performs no store write):
exactly one claim in the window returns true. -/
theorem C9_dedup_exactly_once (x : String) (st0 : RedisKV) (t0 : Nat) (ts : List Nat)
    (hfresh : is_duplicate_message st0 x t0 = false)
    (hts : ∀ t ∈ ts, t0 ≤ t ∧ t < t0 + MESSAGE_DEDUP_TTL_SECONDS) :
    (run_claims x st0 (t0 :: ts)).1 = true :: ts.map (fun _ => false) ∧
    (run_claims x st0 (t0 :: ts)).1.count true = 1 := by
  have hstep : claim_step st0 x t0 = (true, mark_message_processed st0 x t0) := by
    simp [claim_step, hfresh]
  have hlook : redisLookup (mark_message_processed st0 x t0) ("wa:msg:processed:" ++ x)
      = some (t0 + MESSAGE_DEDUP_TTL_SECONDS) := by
    simp [mark_message_processed, redisSetex, redisLookup, List.find?]
  have hrest := run_claims_all_false x (t0 + MESSAGE_DEDUP_TTL_SECONDS) ts
    (mark_message_processed st0 x t0) hlook (fun t ht => (hts t ht).2)
  have hmain : (run_claims x st0 (t0 :: ts)).1 = true :: ts.map (fun _ => false) := by
    simp only [run_claims, hstep]
    rw [hrest.1]
  refine ⟨hmain, ?_⟩
  rw [hmain]
  simp [List.count_cons, List.count_replicate]

/-- C9 witness: three claims of the same id at times 0, 1 and 299 (all inside
the 300-second TTL) from the empty store — only the first is admitted. -/
theorem C9_dedup_witness :
    (run_claims "m1" [] [0, 1, 299]).1 = true :: [1, 299].map (fun _ => false) ∧
    (run_claims "m1" [] [0, 1, 299]).1.count true = 1 :=
  C9_dedup_exactly_once "m1" [] 0 [1, 299] (by decide) (by decide)

/-! # Claims C2 and C3 — correlation-key bookkeeping -/

def bolnaKeyCount (db : DB) (k : String) : Nat :=
  db.calls.countP (fun c => c.bolna_call_id = some k)

def exotelKeyCount (db : DB) (k : String) : Nat :=
  db.calls.countP (fun c => c.exotel_call_id = some k)

/-- The model of the two UNIQUE constraints of the calls table
(app/models/voice.py lines 45–50): at most one record per non-null
correlation key. -/
def keyUnique (db : DB) : Prop :=
  ∀ k, bolnaKeyCount db k ≤ 1 ∧ exotelKeyCount db k ≤ 1

/-- The internal ids of the records holding a given voice-platform key. -/
def idsWithBolnaKey (db : DB) (k : String) : List Nat :=
  (db.calls.filter (fun c => c.bolna_call_id = some k)).map (fun c => c.id)

theorem updateFirst_countP (p q : CallRec → Bool) (f : CallRec → CallRec)
    (h : ∀ c, q (f c) = q c) :
    ∀ l : List CallRec, (updateFirst p f l).countP q = l.countP q := by
  intro l
  induction l with
  | nil => rfl
  | cons c cs ih =>
    by_cases hp : p c
    · simp [updateFirst, hp, List.countP_cons, h]
    · simp [updateFirst, hp, List.countP_cons, ih]

theorem updateFirst_filter_map (p q : CallRec → Bool) (f : CallRec → CallRec)
    (g : CallRec → Nat) (hq : ∀ c, q (f c) = q c) (hg : ∀ c, g (f c) = g c) :
    ∀ l : List CallRec, ((updateFirst p f l).filter q).map g = (l.filter q).map g := by
  intro l
  induction l with
  | nil => rfl
  | cons c cs ih =>
    by_cases hp : p c
    · by_cases hqc : q c <;>
        simp [updateFirst, hp, List.filter_cons, hq, hqc, hg]
    · by_cases hqc : q c <;>
        simp [updateFirst, hp, List.filter_cons, hqc, ih]

theorem bolna_update_keys (cs : CallStatus) (d : Option Nat) (l r : Option String)
    (c : CallRec) :
    (bolna_update cs d l r c).bolna_call_id = c.bolna_call_id ∧
    (bolna_update cs d l r c).exotel_call_id = c.exotel_call_id ∧
    (bolna_update cs d l r c).id = c.id :=
  ⟨rfl, rfl, rfl⟩

theorem exotel_update_keys (cs : CallStatus) (r : Option String) (d : Option Nat)
    (c : CallRec) :
    (exotel_update cs r d c).bolna_call_id = c.bolna_call_id ∧
    (exotel_update cs r d c).exotel_call_id = c.exotel_call_id ∧
    (exotel_update cs r d c).id = c.id :=
  ⟨rfl, rfl, rfl⟩

theorem find?_none_iff_countP_zero (p : CallRec → Bool) (l : List CallRec) :
    l.find? p = none ↔ l.countP p = 0 := by
  rw [List.find?_eq_none, List.countP_eq_zero]

/-- Effect of handle_call_complete when the voice-platform key is already
present: the matched record is updated in place. -/
theorem handle_call_complete_found (db : DB) (p : CallCompletePayload) (c : CallRec)
    (hf : db.calls.find? (fun c => c.bolna_call_id = some p.call_id) = some c) :
    handle_call_complete db p =
      { db with calls := (updateFirst (fun c => c.bolna_call_id = some p.call_id)
          (bolna_update (bolna_status_map_get (pyLower p.status)) (extract_duration p)
            p.language (extract_recording p)) db.calls) } := by
  simp only [handle_call_complete]
  rw [hf]

/-- Effect of handle_call_complete when the key is new and a phone is
present: exactly one record is appended, carrying the bolna key, a fresh id
and no exotel key. -/
theorem handle_call_complete_create (db : DB) (p : CallCompletePayload) (ph : String)
    (hf : db.calls.find? (fun c => c.bolna_call_id = some p.call_id) = none)
    (hph : extract_phone p = some ph) :
    handle_call_complete db p =
      { calls := db.calls ++ [{
          id := db.nextId
          phone := ph
          exotel_call_id := none
          bolna_call_id := some p.call_id
          status := bolna_status_map_get (pyLower p.status)
          duration_seconds := extract_duration p
          language := p.language
          recording_url := extract_recording p }]
        nextId := db.nextId + 1 } := by
  simp only [handle_call_complete]
  rw [hf, hph]

/-- Effect of handle_call_complete when the key is new and no phone can be
extracted: the event is discarded and the store unchanged. -/
theorem handle_call_complete_discard (db : DB) (p : CallCompletePayload)
    (hf : db.calls.find? (fun c => c.bolna_call_id = some p.call_id) = none)
    (hph : extract_phone p = none) :
    handle_call_complete db p = db := by
  simp only [handle_call_complete]
  rw [hf, hph]

/-- Effect of handle_exotel_webhook without a truthy CallSid: ignored. -/
theorem handle_exotel_webhook_ignored (db : DB) (d : ExotelForm)
    (h : truthyS d.CallSid = false) :
    handle_exotel_webhook db d = db := by
  simp [handle_exotel_webhook, h]

/-- Effect of handle_exotel_webhook when the telephony key is present. -/
theorem handle_exotel_webhook_found (db : DB) (d : ExotelForm) (c : CallRec)
    (h : truthyS d.CallSid = true)
    (hf : db.calls.find? (fun c => c.exotel_call_id = some (d.CallSid.getD "")) = some c) :
    handle_exotel_webhook db d =
      { db with calls := (updateFirst (fun c => c.exotel_call_id = some (d.CallSid.getD ""))
          (exotel_update
            (if d.DialWhomNumber then .ESCALATED else EXOTEL_STATUS_MAP_get (pyLower d.Status))
            d.RecordingUrl d.Duration) db.calls) } := by
  simp only [handle_exotel_webhook, h]
  rw [hf]
  simp

/-- Effect of handle_exotel_webhook when the telephony key is new: exactly
one record is appended, carrying the exotel key, a fresh id and no bolna
key. -/
theorem handle_exotel_webhook_create (db : DB) (d : ExotelForm)
    (h : truthyS d.CallSid = true)
    (hf : db.calls.find? (fun c => c.exotel_call_id = some (d.CallSid.getD "")) = none) :
    handle_exotel_webhook db d =
      { calls := db.calls ++ [{
          id := db.nextId
          phone := (if pyLower d.Direction = "inbound" then normalize_phone_exotel d.From
            else normalize_phone_exotel d.To)
          exotel_call_id := some (d.CallSid.getD "")
          bolna_call_id := none
          status := (if d.DialWhomNumber then .ESCALATED
            else EXOTEL_STATUS_MAP_get (pyLower d.Status))
          duration_seconds := d.Duration
          language := none
          recording_url := d.RecordingUrl }]
        nextId := db.nextId + 1 } := by
  simp only [handle_exotel_webhook, h]
  rw [hf]
  simp

/-- One webhook event preserves per-key uniqueness of both correlation
keys. -/
theorem applyEvent_keyUnique (db : DB) (e : WebhookEvent) (h : keyUnique db) :
    keyUnique (applyEvent db e) := by
  cases e with
  | bolna p =>
    cases hf : db.calls.find? (fun c => c.bolna_call_id = some p.call_id) with
    | some c =>
      intro k
      have hb := updateFirst_countP (fun c => c.bolna_call_id = some p.call_id)
        (fun c => c.bolna_call_id = some k)
        (bolna_update (bolna_status_map_get (pyLower p.status)) (extract_duration p)
          p.language (extract_recording p)) (fun c => rfl) db.calls
      have hx := updateFirst_countP (fun c => c.bolna_call_id = some p.call_id)
        (fun c => c.exotel_call_id = some k)
        (bolna_update (bolna_status_map_get (pyLower p.status)) (extract_duration p)
          p.language (extract_recording p)) (fun c => rfl) db.calls
      rw [applyEvent, handle_call_complete_found db p c hf]
      exact ⟨by rw [bolnaKeyCount, hb]; exact (h k).1,
             by rw [exotelKeyCount, hx]; exact (h k).2⟩
    | none =>
      cases hph : extract_phone p with
      | none =>
        rw [applyEvent, handle_call_complete_discard db p hf hph]
        exact h
      | some ph =>
        intro k
        rw [applyEvent, handle_call_complete_create db p ph hf hph]
        constructor
        · rw [bolnaKeyCount, List.countP_append]
          by_cases hk : p.call_id = k
          · have h0 : db.calls.countP (fun c => c.bolna_call_id = some k) = 0 := by
              rw [← hk]
              exact (find?_none_iff_countP_zero _ _).mp hf
            rw [h0]
            simp [hk]
          · have h1 := (h k).1
            rw [bolnaKeyCount] at h1
            simpa [hk] using h1
        · rw [exotelKeyCount, List.countP_append]
          have h2 := (h k).2
          rw [exotelKeyCount] at h2
          simpa using h2
  | exotel d =>
    by_cases hcs : truthyS d.CallSid
    · cases hf : db.calls.find? (fun c => c.exotel_call_id = some (d.CallSid.getD "")) with
      | some c =>
        intro k
        have hb := updateFirst_countP (fun c => c.exotel_call_id = some (d.CallSid.getD ""))
          (fun c => c.bolna_call_id = some k)
          (exotel_update
            (if d.DialWhomNumber then .ESCALATED else EXOTEL_STATUS_MAP_get (pyLower d.Status))
            d.RecordingUrl d.Duration) (fun c => rfl) db.calls
        have hx := updateFirst_countP (fun c => c.exotel_call_id = some (d.CallSid.getD ""))
          (fun c => c.exotel_call_id = some k)
          (exotel_update
            (if d.DialWhomNumber then .ESCALATED else EXOTEL_STATUS_MAP_get (pyLower d.Status))
            d.RecordingUrl d.Duration) (fun c => rfl) db.calls
        rw [applyEvent, handle_exotel_webhook_found db d c hcs hf]
        exact ⟨by rw [bolnaKeyCount, hb]; exact (h k).1,
               by rw [exotelKeyCount, hx]; exact (h k).2⟩
      | none =>
        intro k
        rw [applyEvent, handle_exotel_webhook_create db d hcs hf]
        constructor
        · rw [bolnaKeyCount, List.countP_append]
          have h1 := (h k).1
          rw [bolnaKeyCount] at h1
          simpa using h1
        · rw [exotelKeyCount, List.countP_append]
          by_cases hk : d.CallSid.getD "" = k
          · have h0 : db.calls.countP (fun c => c.exotel_call_id = some k) = 0 := by
              rw [← hk]
              exact (find?_none_iff_countP_zero _ _).mp hf
            rw [h0]
            simp [hk]
          · have h2 := (h k).2
            rw [exotelKeyCount] at h2
            simpa [hk] using h2
    · rw [applyEvent, handle_exotel_webhook_ignored db d (by simpa using hcs)]
      exact h

theorem idsWithBolnaKey_length (db : DB) (k : String) :
    (idsWithBolnaKey db k).length = bolnaKeyCount db k := by
  simp [idsWithBolnaKey, bolnaKeyCount, List.countP_eq_length_filter]

/-- Once some record holds a voice-platform key, no event changes which
record (by internal id) holds it: later events referencing the key update
that same record and never create another. -/
theorem applyEvent_ids_preserved (db : DB) (e : WebhookEvent) (k : String)
    (h : idsWithBolnaKey db k ≠ []) :
    idsWithBolnaKey (applyEvent db e) k = idsWithBolnaKey db k := by
  have hcount : bolnaKeyCount db k ≠ 0 := by
    intro h0
    exact h (List.eq_nil_of_length_eq_zero (by rw [idsWithBolnaKey_length, h0]))
  cases e with
  | bolna p =>
    cases hf : db.calls.find? (fun c => c.bolna_call_id = some p.call_id) with
    | some c =>
      rw [applyEvent, handle_call_complete_found db p c hf]
      simp only [idsWithBolnaKey]
      exact updateFirst_filter_map (fun c => c.bolna_call_id = some p.call_id)
        (fun c => c.bolna_call_id = some k)
        (bolna_update (bolna_status_map_get (pyLower p.status)) (extract_duration p)
          p.language (extract_recording p))
        (fun c => c.id) (fun c => rfl) (fun c => rfl) db.calls
    | none =>
      have hne : p.call_id ≠ k := by
        intro he
        apply hcount
        rw [← he]
        exact (find?_none_iff_countP_zero _ _).mp hf
      cases hph : extract_phone p with
      | none => rw [applyEvent, handle_call_complete_discard db p hf hph]
      | some ph =>
        rw [applyEvent, handle_call_complete_create db p ph hf hph]
        simp [idsWithBolnaKey, List.filter_append, hne]
  | exotel d =>
    by_cases hcs : truthyS d.CallSid
    · cases hf : db.calls.find? (fun c => c.exotel_call_id = some (d.CallSid.getD "")) with
      | some c =>
        rw [applyEvent, handle_exotel_webhook_found db d c hcs hf]
        simp only [idsWithBolnaKey]
        exact updateFirst_filter_map (fun c => c.exotel_call_id = some (d.CallSid.getD ""))
          (fun c => c.bolna_call_id = some k)
          (exotel_update
            (if d.DialWhomNumber then .ESCALATED else EXOTEL_STATUS_MAP_get (pyLower d.Status))
            d.RecordingUrl d.Duration)
          (fun c => c.id) (fun c => rfl) (fun c => rfl) db.calls
      | none =>
        rw [applyEvent, handle_exotel_webhook_create db d hcs hf]
        simp [idsWithBolnaKey, List.filter_append]
    · rw [applyEvent, handle_exotel_webhook_ignored db d (by simpa using hcs)]

theorem applyEvents_ids_preserved (evs : List WebhookEvent) :
    ∀ (db : DB) (k : String), idsWithBolnaKey db k ≠ [] →
      idsWithBolnaKey (applyEvents db evs) k = idsWithBolnaKey db k := by
  induction evs with
  | nil => intro db k _; rfl
  | cons e evs ih =>
    intro db k h
    have h1 := applyEvent_ids_preserved db e k h
    have h2 := ih (applyEvent db e) k (by rw [h1]; exact h)
    calc idsWithBolnaKey (applyEvents db (e :: evs)) k
        = idsWithBolnaKey (applyEvents (applyEvent db e) evs) k := rfl
      _ = idsWithBolnaKey (applyEvent db e) k := h2
      _ = idsWithBolnaKey db k := h1

theorem applyEvents_keyUnique (evs : List WebhookEvent) :
    ∀ db : DB, keyUnique db → keyUnique (applyEvents db evs) := by
  induction evs with
  | nil => intro db h; exact h
  | cons e evs ih =>
    intro db h
    exact ih (applyEvent db e) (applyEvent_keyUnique db e h)

/-- Over a run of bolna events all referencing the same voice-platform id,
starting from a store without that key: as long as no event supplies a
phone, nothing is created; the first phone-supplying event creates the one
record, and it is then preserved forever. -/
theorem bolna_seq_exactly_one (cid : String) :
    ∀ (ps : List CallCompletePayload) (db : DB),
      bolnaKeyCount db cid = 0 →
      (∀ p ∈ ps, p.call_id = cid) →
      (∃ p ∈ ps, (extract_phone p).isSome) →
      bolnaKeyCount (applyEvents db (ps.map .bolna)) cid = 1 := by
  intro ps
  induction ps with
  | nil =>
    intro db _ _ hex
    simp at hex
  | cons p rest ih =>
    intro db h0 hall hex
    have hpc : p.call_id = cid := hall p (by simp)
    have hf : db.calls.find? (fun c => c.bolna_call_id = some p.call_id) = none := by
      apply (find?_none_iff_countP_zero _ _).mpr
      rw [hpc]
      exact h0
    cases hph : extract_phone p with
    | some ph =>
      have hcreate := handle_call_complete_create db p ph hf hph
      have h1 : bolnaKeyCount (handle_call_complete db p) cid = 1 := by
        rw [hcreate, bolnaKeyCount, List.countP_append]
        rw [bolnaKeyCount] at h0
        rw [h0]
        simp [hpc]
      have hne : idsWithBolnaKey (handle_call_complete db p) cid ≠ [] := by
        intro hnil
        have := idsWithBolnaKey_length (handle_call_complete db p) cid
        rw [hnil, h1] at this
        simp at this
      have hpres := applyEvents_ids_preserved (rest.map .bolna)
        (handle_call_complete db p) cid hne
      have : (idsWithBolnaKey (applyEvents (handle_call_complete db p) (rest.map .bolna)) cid).length
          = 1 := by
        rw [hpres, idsWithBolnaKey_length, h1]
      calc bolnaKeyCount (applyEvents db ((p :: rest).map .bolna)) cid
          = bolnaKeyCount (applyEvents (handle_call_complete db p) (rest.map .bolna)) cid := rfl
        _ = (idsWithBolnaKey (applyEvents (handle_call_complete db p) (rest.map .bolna)) cid).length :=
            (idsWithBolnaKey_length _ _).symm
        _ = 1 := this
    | none =>
      have hdisc := handle_call_complete_discard db p hf hph
      have hex' : ∃ q ∈ rest, (extract_phone q).isSome := by
        rcases hex with ⟨q, hq, hqs⟩
        rcases List.mem_cons.mp hq with rfl | hmem
        · rw [hph] at hqs
          simp at hqs
        · exact ⟨q, hmem, hqs⟩
      calc bolnaKeyCount (applyEvents db ((p :: rest).map .bolna)) cid
          = bolnaKeyCount (applyEvents (handle_call_complete db p) (rest.map .bolna)) cid := rfl
        _ = bolnaKeyCount (applyEvents db (rest.map .bolna)) cid := by rw [hdisc]
        _ = 1 := ih db h0 (fun q hq => hall q (by simp [hq])) hex'

/-- C2: over every sequence of inbound webhook events from an empty store,
at most one CallRecord holds any given non-null correlation key (voice
platform or telephony); over any sequence of events all referencing the same
voice-platform call id in which some event supplies a phone number, exactly
one CallRecord with that key exists afterwards (the first phone-supplying
event creates it); and once a record holds a voice-platform key, every later
event leaves the identity of the record(s) holding that key unchanged —
later events update the same record rather than creating another. -/
theorem C2_correlation_uniqueness :
    (∀ evs : List WebhookEvent, keyUnique (applyEvents emptyDB evs)) ∧
    (∀ (cid : String) (ps : List CallCompletePayload),
      (∀ p ∈ ps, p.call_id = cid) → (∃ p ∈ ps, (extract_phone p).isSome) →
      bolnaKeyCount (applyEvents emptyDB (ps.map .bolna)) cid = 1) ∧
    (∀ (db : DB) (e : WebhookEvent) (cid : String), idsWithBolnaKey db cid ≠ [] →
      idsWithBolnaKey (applyEvent db e) cid = idsWithBolnaKey db cid) := by
  refine ⟨?_, ?_, ?_⟩
  · intro evs
    apply applyEvents_keyUnique
    intro k
    exact ⟨by simp [bolnaKeyCount, emptyDB], by simp [exotelKeyCount, emptyDB]⟩
  · intro cid ps hall hex
    exact bolna_seq_exactly_one cid ps emptyDB (by simp [bolnaKeyCount, emptyDB]) hall hex
  · intro db e cid h
    exact applyEvent_ids_preserved db e cid h

/-- A telephony-provider (Exotel) delivery for a call, carrying only the
telephony call id EX1. -/
def exotelEventC3 : ExotelForm :=
  ⟨some "EX1", "+919876543210", "08012345678", "completed", "inbound", none, some 42, false⟩

/-- A later voice-platform (Bolna) call-complete delivery for the same call
(same customer phone), carrying only the voice-platform call id BL1. -/
def bolnaEventC3 : CallCompletePayload :=
  ⟨"BL1", "completed", some 42, some "thanks, done", none, none, none, none,
    some "+919876543210"⟩

/-- C3 counterexample: after a telephony-id-only event followed by a
voice-platform-id event for the same call, the store holds TWO records, no
record carries both keys, and the two keys resolve to records with different
internal ids (0 and 1) — the voice-platform id was not backfilled onto the
matched record, because find_call searches by bolna_call_id only. -/
theorem C3_no_backfill_counterexample :
    (applyEvents emptyDB [.exotel exotelEventC3, .bolna bolnaEventC3]).calls.length = 2 ∧
    ((applyEvents emptyDB [.exotel exotelEventC3, .bolna bolnaEventC3]).calls.filter
        (fun c => c.exotel_call_id.isSome && c.bolna_call_id.isSome)).length = 0 ∧
    ((applyEvents emptyDB [.exotel exotelEventC3, .bolna bolnaEventC3]).calls.find?
        (fun c => c.exotel_call_id = some "EX1")).map (fun c => c.id) = some 0 ∧
    ((applyEvents emptyDB [.exotel exotelEventC3, .bolna bolnaEventC3]).calls.find?
        (fun c => c.bolna_call_id = some "BL1")).map (fun c => c.id) = some 1 := by
  refine ⟨by decide, by decide, by decide, by decide⟩

/-- C3 (amended): the Bolna call-complete handler looks calls up by the
voice-platform id alone (find_call, lines 587–595); an event carrying a
voice-platform id unknown to the store never matches — and never backfills —
a record keyed only by the telephony id. Instead, when the event carries a
phone number, a second, independent record is appended: every existing
record keeps its id and both of its keys unchanged, and the new record
carries the voice-platform key, a fresh id and no telephony key, so the two
keys resolve to two distinct records. -/
theorem C3_no_backfill_amended (db : DB) (p : CallCompletePayload) (ph : String)
    (hnew : ∀ c ∈ db.calls, ¬ c.bolna_call_id = some p.call_id)
    (hph : extract_phone p = some ph) :
    (handle_call_complete db p).calls.map (fun c => (c.id, c.exotel_call_id, c.bolna_call_id))
      = db.calls.map (fun c => (c.id, c.exotel_call_id, c.bolna_call_id))
        ++ [(db.nextId, none, some p.call_id)] := by
  have hf : db.calls.find? (fun c => c.bolna_call_id = some p.call_id) = none :=
    List.find?_eq_none.mpr (by simpa using hnew)
  rw [handle_call_complete_create db p ph hf hph]
  simp

/-- C3 witness: the amended no-backfill theorem applied to the store produced
by the telephony-only event, with the concrete voice-platform event. -/
theorem C3_no_backfill_witness :
    (handle_call_complete (applyEvent emptyDB (.exotel exotelEventC3)) bolnaEventC3).calls.map
        (fun c => (c.id, c.exotel_call_id, c.bolna_call_id))
      = (applyEvent emptyDB (.exotel exotelEventC3)).calls.map
          (fun c => (c.id, c.exotel_call_id, c.bolna_call_id))
        ++ [((applyEvent emptyDB (.exotel exotelEventC3)).nextId, none,
            some bolnaEventC3.call_id)] :=
  C3_no_backfill_amended (applyEvent emptyDB (.exotel exotelEventC3)) bolnaEventC3
    "919876543210" (by decide) (by decide)
